import Mathlib

/-!
Shallow embedding of the scoring and tiered content retrieval logic of the
repository, which holds two Streamlit apps: a movie-genre quiz app
(`my-streamlit-app/app.py`, namespace `Quiz` below) and the MoodPick app
(`app.py`, namespace `MoodPick` below).  Network calls are modelled by
passing the catalog responses in as function parameters; Python dicts are
modelled as association lists in insertion order; Python floats are modelled
by exact fractions of integers; a Python function that can raise KeyError is
modelled with Option, where `none` models the raised exception.
-/

/-- Python rounding (round-half-to-even) of the exact value `num / den`,
modelling `round` applied to the float arithmetic of the source.  A
denominator of 0 never occurs at the call sites. -/
def pyRound (num den : ℤ) : ℤ :=
  if den = 0 then 0
  else
    let num := if den < 0 then -num else num
    let den := if den < 0 then -den else den
    let n := num.fdiv den
    let r := num - n * den
    if 2 * r < den then n
    else if den < 2 * r then n + 1
    else if n % 2 = 0 then n else n + 1

namespace Quiz

/-- `TEAM_TUNING["QUESTION_WEIGHTS"]`. -/
def QUESTION_WEIGHTS : List (String × ℤ) :=
  [("q1", 1), ("q2", 1), ("q3", 1), ("q4", 2), ("q5", 2)]

/-- `TEAM_TUNING["TIE_BREAKER_ORDER"]`. -/
def TIE_BREAKER_ORDER : List String :=
  ["sf_fantasy", "action_adventure", "romance_drama", "comedy"]

/-- `TEAM_TUNING["MIXED_GENRE_TOP_N"]`. -/
def MIXED_GENRE_TOP_N : ℕ := 2

/-- `TEAM_TUNING["MIXED_GENRE_RATIO"]`, the floats 0.6 and 0.4 as exact
fractions (numerator, denominator). -/
def MIXED_GENRE_RATIO : List (ℤ × ℤ) := [(6, 10), (4, 10)]

/-- The `GenreProfile` dataclass. -/
structure GenreProfile where
  key : String
  label : String
  tmdb_ids : List ℤ
  base_reason : String
deriving DecidableEq

/-- The `GENRES` dict (insertion order preserved). -/
def GENRES : List (String × GenreProfile) :=
  [("romance_drama",
    { key := "romance_drama", label := "로맨스/드라마", tmdb_ids := [10749, 18],
      base_reason := "감정선과 관계의 변화를 좋아하는 편" }),
   ("action_adventure",
    { key := "action_adventure", label := "액션/어드벤처", tmdb_ids := [28],
      base_reason := "짜릿한 전개와 도전/성장 서사를 선호" }),
   ("sf_fantasy",
    { key := "sf_fantasy", label := "SF/판타지", tmdb_ids := [878, 14],
      base_reason := "세계관·상상력·설정에 끌리는 편" }),
   ("comedy",
    { key := "comedy", label := "코미디", tmdb_ids := [35],
      base_reason := "웃음 포인트와 가벼운 템포를 즐김" })]

/-- `GENRES.keys()` in dict insertion order. -/
def GENRES_keys : List String :=
  ["romance_drama", "action_adventure", "sf_fantasy", "comedy"]

/-- The ids of the five configured questions, in `QUESTIONS` order. -/
def QUESTIONS_ids : List String := ["q1", "q2", "q3", "q4", "q5"]

/-- `TEAM_TUNING["QUESTION_WEIGHTS"].get(qid, 1)`. -/
def wlookup (q : String) : ℤ := (QUESTION_WEIGHTS.lookup q).getD 1

/-- `scores[gkey] += w` on the score dict: updates the entry in place when
the key is present, returns `none` (KeyError) when it is absent. -/
def dincr : List (String × ℤ) → String → ℤ → Option (List (String × ℤ))
  | [], _, _ => none
  | (k, v) :: rest, g, w =>
    if k = g then some ((k, v + w) :: rest)
    else (dincr rest g w).map fun r => (k, v) :: r

/-- One iteration of the `for qid, gkey in answers.items()` loop of
`score_answers`. -/
def scoreStep (acc : Option (List (String × ℤ))) (a : String × String) :
    Option (List (String × ℤ)) :=
  acc.bind fun d => dincr d a.2 (wlookup a.1)

/-- `score_answers`: starts from `{k: 0 for k in GENRES}` and adds each
answered question's configured weight to the chosen genre; `none` models the
KeyError raised on a genre key missing from `GENRES`. -/
def score_answers (answers : List (String × String)) : Option (List (String × ℤ)) :=
  answers.foldl scoreStep (some (GENRES_keys.map fun k => (k, 0)))

/-- The total weight contributed to genre `k` by an answer list: the sum of
the configured weights of the questions answered with `k`. -/
def tally (answers : List (String × String)) (k : String) : ℤ :=
  ((answers.filter fun a => a.2 == k).map fun a => wlookup a.1).sum

/-- Index of a key in a list starting at `i`, with the source's default 999
for a missing key; used to model `tie_rank.get(kv[0], 999)`. -/
def rankIn : List String → ℕ → String → ℕ
  | [], _, _ => 999
  | x :: xs, i, k => if x = k then i else rankIn xs (i + 1) k

/-- `tie_rank = {k: i for i, k in enumerate(TIE_BREAKER_ORDER)}` followed by
`tie_rank.get(k, 999)`. -/
def tieRank (k : String) : ℕ := rankIn TIE_BREAKER_ORDER 0 k

/-- The comparison key `lambda kv: (-kv[1], tie_rank.get(kv[0], 999))` of
`pick_top_genres`, as a lexicographic less-or-equal. -/
def pyLe (a b : String × ℤ) : Prop :=
  (-a.2 < -b.2) ∨ (-a.2 = -b.2 ∧ tieRank a.1 ≤ tieRank b.1)

instance pyLe.decRel : DecidableRel pyLe := fun a b =>
  inferInstanceAs (Decidable ((-a.2 < -b.2) ∨ (-a.2 = -b.2 ∧ tieRank a.1 ≤ tieRank b.1)))

instance pyLe.isTotal : IsTotal (String × ℤ) pyLe where
  total a b := by
    unfold pyLe
    rcases lt_trichotomy (-a.2) (-b.2) with h | h | h
    · exact Or.inl (Or.inl h)
    · rcases Nat.le_total (tieRank a.1) (tieRank b.1) with h2 | h2
      · exact Or.inl (Or.inr ⟨h, h2⟩)
      · exact Or.inr (Or.inr ⟨h.symm, h2⟩)
    · exact Or.inr (Or.inl h)

instance pyLe.isTrans : IsTrans (String × ℤ) pyLe where
  trans a b c hab hbc := by
    unfold pyLe at *
    rcases hab with h1 | ⟨h1, r1⟩ <;> rcases hbc with h2 | ⟨h2, r2⟩
    · exact Or.inl (lt_trans h1 h2)
    · exact Or.inl (h2 ▸ h1)
    · exact Or.inl (h1 ▸ h2)
    · exact Or.inr ⟨h1.trans h2, le_trans r1 r2⟩

/-- `sorted(scores.items(), key=lambda kv: (-kv[1], tie_rank.get(kv[0], 999)))`;
a stable sort, modelled by insertion sort. -/
def sortedPairs (items : List (String × ℤ)) : List (String × ℤ) :=
  List.insertionSort pyLe items

/-- `pick_top_genres`: sort by (score descending, tie-break rank ascending)
and keep the first `top_n` keys.  The dict argument is passed as its item
list in iteration order. -/
def pick_top_genres (items : List (String × ℤ)) (top_n : ℕ) : List String :=
  ((sortedPairs items).take top_n).map Prod.fst

/-- The list of percentages computed by the loop of `build_result_reason`:
`int(round(scores[k] / total * 100))` with `total = sum(scores.values()) or 1`.
`none` models a KeyError on a key missing from the score dict. -/
def result_pcts (top_keys : List String) (items : List (String × ℤ)) :
    Option (List ℤ) :=
  let s := (items.map Prod.snd).sum
  let total : ℤ := if s = 0 then 1 else s
  top_keys.mapM fun k =>
    (items.lookup k).map fun sc => pyRound (sc * 100) total

/-- `build_result_reason`: joins `f"{GENRES[k].label} {pct}%"` with " / ". -/
def build_result_reason (top_keys : List String) (items : List (String × ℤ)) :
    Option String :=
  let s := (items.map Prod.snd).sum
  let total : ℤ := if s = 0 then 1 else s
  (top_keys.mapM fun k => do
      let sc ← items.lookup k
      let prof ← GENRES.lookup k
      pure (prof.label ++ " " ++ toString (pyRound (sc * 100) total) ++ "%")).map
    (String.intercalate " / ")

/-- Python `str.strip()`: drop leading and trailing whitespace. -/
def pyStrip (s : String) : String :=
  ⟨((s.data.dropWhile Char.isWhitespace).reverse.dropWhile Char.isWhitespace).reverse⟩

/-- A TMDB movie record as the app reads it: every field is read with
`dict.get` and may be absent.  `vote_average` is a float, modelled as ℚ
(the code only negates and compares it). -/
structure Movie where
  id : Option ℤ
  title : Option String
  poster_path : Option String
  vote_average : Option ℚ
  overview : Option String
deriving DecidableEq

/-- The inner `rating` helper of `pick_top_unique`:
`v if isinstance(v, (int, float)) else 0.0`. -/
def rating (m : Movie) : ℚ := m.vote_average.getD 0

/-- The sort key `(m.get("poster_path") is None, -rating(m))` of
`pick_top_unique`, as a lexicographic less-or-equal (False sorts before
True). -/
def movieLe (a b : Movie) : Prop :=
  ((if a.poster_path.isNone then 1 else 0 : ℕ) < (if b.poster_path.isNone then 1 else 0))
  ∨ ((if a.poster_path.isNone then 1 else 0 : ℕ) = (if b.poster_path.isNone then 1 else 0)
      ∧ -(rating a) ≤ -(rating b))

instance movieLe.decRel : DecidableRel movieLe := fun a b =>
  inferInstanceAs (Decidable (_ ∨ _ ∧ _))

instance movieLe.isTotal : IsTotal Movie movieLe where
  total a b := by
    unfold movieLe
    rcases lt_trichotomy (if a.poster_path.isNone then 1 else 0 : ℕ)
      (if b.poster_path.isNone then 1 else 0) with h | h | h
    · exact Or.inl (Or.inl h)
    · rcases le_total (-(rating a)) (-(rating b)) with h2 | h2
      · exact Or.inl (Or.inr ⟨h, h2⟩)
      · exact Or.inr (Or.inr ⟨h.symm, h2⟩)
    · exact Or.inr (Or.inl h)

instance movieLe.isTrans : IsTrans Movie movieLe where
  trans a b c hab hbc := by
    unfold movieLe at *
    rcases hab with h1 | ⟨h1, r1⟩ <;> rcases hbc with h2 | ⟨h2, r2⟩
    · exact Or.inl (lt_trans h1 h2)
    · exact Or.inl (h2 ▸ h1)
    · exact Or.inl (h1 ▸ h2)
    · exact Or.inr ⟨h1.trans h2, le_trans r1 r2⟩

/-- One iteration of the inner `for m in chunk` loop of
`fetch_movies_for_profile`: skip a movie whose id is falsy (absent or 0) or
already seen; otherwise append it and record its id.  The state is
(results, seen). -/
def fetchStep (s : List Movie × List ℤ) (m : Movie) : List Movie × List ℤ :=
  match m.id with
  | none => s
  | some v => if v = 0 ∨ v ∈ s.2 then s else (s.1 ++ [m], s.2 ++ [v])

/-- Merging one fetched page into the running (results, seen) state. -/
def addChunk (s : List Movie × List ℤ) (chunk : List Movie) :
    List Movie × List ℤ :=
  chunk.foldl fetchStep s

/-- The `for gid in profile.tmdb_ids: for page in (1, 2): ...` loops of
`fetch_movies_for_profile`, with both `if len(results) >= need * 3: break`
exits.  The catalog response for (genre id, page) is passed in as `cat`
(it models the network call `tmdb_discover`). -/
def fetchGids (cat : ℤ → ℕ → List Movie) (need : ℤ) :
    List ℤ → List Movie × List ℤ → List Movie × List ℤ
  | [], s => s
  | gid :: rest, s =>
    let s1 := addChunk s (cat gid 1)
    if need * 3 ≤ (s1.1.length : ℤ) then s1
    else
      let s2 := addChunk s1 (cat gid 2)
      if need * 3 ≤ (s2.1.length : ℤ) then s2
      else fetchGids cat need rest s2

/-- `fetch_movies_for_profile` (api key, language and sort order are
absorbed into the catalog parameter `cat`, which models `tmdb_discover`). -/
def fetch_movies_for_profile (cat : ℤ → ℕ → List Movie) (profile : GenreProfile)
    (need : ℤ) : List Movie :=
  (fetchGids cat need profile.tmdb_ids ([], [])).1

/-- Invariant of the (results, seen) state of `fetch_movies_for_profile`:
the ids of the collected movies are exactly the seen ids, without
duplicates. -/
def FetchInv (s : List Movie × List ℤ) : Prop :=
  s.1.map Movie.id = s.2.map some ∧ s.2.Nodup

/-- The dedup-by-title loop of `pick_top_unique`, including the
`if len(out) >= limit: break` exit that is checked only after appending. -/
def pickLoop (limit : ℤ) : List Movie → List Movie → List String → List Movie
  | [], out, _ => out
  | m :: rest, out, seen =>
    let t := pyStrip (m.title.getD "")
    if t = "" ∨ t ∈ seen then pickLoop limit rest out seen
    else
      let out' := out ++ [m]
      if limit ≤ (out'.length : ℤ) then out'
      else pickLoop limit rest out' (seen ++ [t])

/-- `pick_top_unique`: optionally sort poster-present-first then by rating
descending (a stable sort, modelled by insertion sort), then keep movies
with fresh non-empty titles up to `limit`. -/
def pick_top_unique (movies : List Movie) (limit : ℤ)
    (poster_first : Bool := true) : List Movie :=
  let ms := if poster_first then List.insertionSort movieLe movies else movies
  pickLoop limit ms [] []

/-- The rounded per-genre counts of `build_mixed_recommendations`:
`[max(0, int(round(total_count * r))) for r in ratios]` after ratios is
padded / truncated to the number of top keys. -/
def rawCounts (ratios : List (ℤ × ℤ)) (kLen : ℕ) (total_count : ℤ) : List ℤ :=
  ((ratios ++ List.replicate kLen ((0 : ℤ), (1 : ℤ))).take kLen).map
    fun r => max 0 (pyRound (total_count * r.1) r.2)

/-- The count allocation of `build_mixed_recommendations`: rounded counts,
then `counts[0] += total_count - sum(counts)` when counts is nonempty. -/
def allocate (ratios : List (ℤ × ℤ)) (kLen : ℕ) (total_count : ℤ) : List ℤ :=
  match rawCounts ratios kLen total_count with
  | [] => []
  | c :: cs => (c + (total_count - (c :: cs).sum)) :: cs

/-- `build_mixed_recommendations`: allocate the total count over the top
genre keys, fetch and pick per genre, and tag each pick with its genre key.
`none` models the KeyError raised by `GENRES[gkey]` on an unknown key. -/
def build_mixed_recommendations (cat : ℤ → ℕ → List Movie)
    (top_keys : List String) (total_count : ℤ) :
    Option (List (String × Movie)) :=
  let counts := allocate MIXED_GENRE_RATIO top_keys.length total_count
  (top_keys.zip counts).foldlM
    (fun mixed kn =>
      if kn.2 ≤ 0 then some mixed
      else (GENRES.lookup kn.1).map fun prof =>
        mixed ++ (pick_top_unique (fetch_movies_for_profile cat prof kn.2) kn.2 true).map
          fun m => (kn.1, m))
    []

end Quiz

namespace MoodPick

def TMDB_IMG : String := "https://image.tmdb.org/t/p/w500"

/-- The TMDB genre-id table (`GENRE` dict), as a total function on the
configured genre names (the source only indexes it with literal keys, so
the fallback branch is never reached). -/
def GENRE : String → ℤ
  | "action" => 28
  | "adventure" => 12
  | "animation" => 16
  | "comedy" => 35
  | "crime" => 80
  | "documentary" => 99
  | "drama" => 18
  | "family" => 10751
  | "fantasy" => 14
  | "history" => 36
  | "horror" => 27
  | "music" => 10402
  | "mystery" => 9648
  | "romance" => 10749
  | "scifi" => 878
  | "thriller" => 53
  | "war" => 10752
  | _ => 0

/-- `MOOD_TO_GENRES_WEIGHTED`: mood to (primary genres, secondary genres). -/
def MOOD_TO_GENRES_WEIGHTED : List (String × (List ℤ × List ℤ)) :=
  [("피곤함", ([GENRE "comedy", GENRE "animation", GENRE "family"],
              [GENRE "fantasy", GENRE "music", GENRE "drama"])),
   ("우울함", ([GENRE "drama", GENRE "music"],
              [GENRE "comedy", GENRE "romance", GENRE "mystery"])),
   ("설렘", ([GENRE "romance", GENRE "comedy", GENRE "fantasy"],
            [GENRE "drama", GENRE "adventure"])),
   ("무기력", ([GENRE "adventure", GENRE "action", GENRE "comedy"],
              [GENRE "thriller", GENRE "fantasy", GENRE "crime"]))]

/-- `VIBE_GENRE_BOOST`. -/
def VIBE_GENRE_BOOST : List (String × List ℤ) :=
  [("혼자", [GENRE "mystery", GENRE "drama"]),
   ("친구와", [GENRE "comedy", GENRE "adventure"]),
   ("데이트", [GENRE "romance", GENRE "comedy"]),
   ("집에 있음", [GENRE "animation", GENRE "family", GENRE "documentary"])]

/-- `WEATHER_GENRE_BOOST`. -/
def WEATHER_GENRE_BOOST : List (String × List ℤ) :=
  [("맑음", [GENRE "adventure", GENRE "comedy"]),
   ("비", [GENRE "drama", GENRE "mystery"]),
   ("흐림", [GENRE "fantasy", GENRE "thriller"])]

/-- One entry of the JSON `results` array; every field is read with
`dict.get` and may be absent. -/
structure RawItem where
  title : Option String
  name : Option String
  overview : Option String
  poster_path : Option String
  profile_path : Option String
  id : Option ℤ
  media_type : Option String
deriving DecidableEq

/-- The parsed JSON body of a TMDB response. -/
structure TmdbPayload where
  results : Option (List RawItem)
deriving DecidableEq

/-- Outcome of one HTTP call inside a `try` block: `requests.get` can raise
a transport error, `raise_for_status` can raise on a non-success status,
`r.json()` can raise a parse error, or the call succeeds with a payload. -/
inductive FetchOutcome where
  | transportError
  | httpError
  | parseError
  | ok (data : TmdbPayload)
deriving DecidableEq

/-- The outcome is one of the three exceptional cases. -/
def FetchOutcome.isFailure : FetchOutcome → Prop
  | .ok _ => False
  | _ => True

instance FetchOutcome.isFailure.dec : DecidablePred FetchOutcome.isFailure := by
  intro o
  cases o <;> unfold FetchOutcome.isFailure <;> infer_instance

/-- Python string truthiness, for the `a or b` chains on optional strings:
`None` and `""` are falsy. -/
def truthyStr : Option String → Option String
  | some s => if s = "" then none else some s
  | none => none

/-- A display item built by the MoodPick TMDB client. -/
structure Item where
  media_type : String
  title : String
  overview : String
  poster_url : Option String
  id : Option ℤ
deriving DecidableEq

/-- `tmdb_discover`: any exception inside the `try` block returns `[]`; on
success each raw result is mapped to an `Item`.  The network response is
passed in as `outcome`; the query parameters only shape the request. -/
def tmdb_discover (media : String) (genres : List ℤ) (language region : String)
    (vote_count_gte : ℤ) (page : ℕ) (outcome : FetchOutcome) : List Item :=
  match outcome with
  | .ok data =>
    (data.results.getD []).map fun item =>
      { media_type := media,
        title := ((truthyStr item.title).or (truthyStr item.name)).getD "Untitled",
        overview := (truthyStr item.overview).getD "",
        poster_url := (truthyStr item.poster_path).map fun p => TMDB_IMG ++ p,
        id := item.id }
  | _ => []

/-- `tmdb_search_multi`: any exception returns `[]`; results whose
`media_type` is not movie/tv (e.g. person) are skipped; the poster falls
back to `profile_path`. -/
def tmdb_search_multi (query language : String) (outcome : FetchOutcome) :
    List Item :=
  match outcome with
  | .ok data =>
    (data.results.getD []).filterMap fun item =>
      match item.media_type with
      | some mt =>
        if mt = "movie" ∨ mt = "tv" then
          some { media_type := mt,
                 title := ((truthyStr item.title).or (truthyStr item.name)).getD "Untitled",
                 overview := (truthyStr item.overview).getD "",
                 poster_url := ((truthyStr item.poster_path).or (truthyStr item.profile_path)).map
                   fun p => TMDB_IMG ++ p,
                 id := item.id }
        else none
      | none => none
  | _ => []

/-- Order-preserving duplicate removal: the `seen` set loops of
`build_weighted_genre_lists`. -/
def uniqKeepFirst : List ℤ → List ℤ → List ℤ
  | [], _ => []
  | g :: rest, seen =>
    if g ∈ seen then uniqKeepFirst rest seen
    else g :: uniqKeepFirst rest (g :: seen)

/-- `build_weighted_genre_lists`: primary and secondary genre lists from
mood, boosted by vibe and weather. -/
def build_weighted_genre_lists (mood vibe weather : String) :
    List ℤ × List ℤ :=
  let base := (MOOD_TO_GENRES_WEIGHTED.lookup mood).getD
    ([GENRE "comedy", GENRE "drama"], [GENRE "romance"])
  let boosts := (VIBE_GENRE_BOOST.lookup vibe).getD []
    ++ (WEATHER_GENRE_BOOST.lookup weather).getD []
  (uniqKeepFirst (base.1 ++ boosts) [],
   uniqKeepFirst (base.2 ++ base.1 ++ boosts) [])

/-- The loop of `dedupe_items`, keyed on (media_type, id), with the
`if len(out) >= limit: break` exit that is checked only after appending. -/
def dedupeLoop (limit : ℤ) :
    List Item → List Item → List (String × Option ℤ) → List Item
  | [], out, _ => out
  | x :: rest, out, seen =>
    let key := (x.media_type, x.id)
    if key ∈ seen then dedupeLoop limit rest out seen
    else
      let out' := out ++ [x]
      if limit ≤ (out'.length : ℤ) then out'
      else dedupeLoop limit rest out' (seen ++ [key])

/-- `dedupe_items`. -/
def dedupe_items (items : List Item) (limit : ℤ) : List Item :=
  dedupeLoop limit items [] []

/-- `tmdb_get_recommendations_weighted`: discover with the primary genres,
then with the secondary genres at a relaxed vote threshold, then fall back
to free-text search (repeated in en-US when the language is not already
en-US), deduplicating and capping at `n_items` after every stage.  The
network responses are passed in through `discOutcome` (arguments: media,
genres, vote threshold, page) and `searchOutcome` (arguments: query,
language). -/
def tmdb_get_recommendations_weighted
    (discOutcome : String → List ℤ → ℤ → ℕ → FetchOutcome)
    (searchOutcome : String → String → FetchOutcome)
    (content_mode mood vibe weather fallback_query language region : String)
    (vote_count_gte : ℤ) (n_items : ℤ) (use_search_fallback : Bool) :
    List Item :=
  let pg := build_weighted_genre_lists mood vibe weather
  let media_list := if content_mode = "both" then ["movie", "tv"] else [content_mode]
  let collected := media_list.foldl
    (fun acc media =>
      acc ++ tmdb_discover media pg.1 language region vote_count_gte 1
        (discOutcome media pg.1 vote_count_gte 1)) []
  let collected := dedupe_items collected n_items
  if n_items ≤ (collected.length : ℤ) then collected
  else
    let more := media_list.foldl
      (fun acc media =>
        acc ++ tmdb_discover media pg.2 language region (max 0 (vote_count_gte - 50)) 1
          (discOutcome media pg.2 (max 0 (vote_count_gte - 50)) 1)) []
    let collected := dedupe_items (collected ++ more) n_items
    if n_items ≤ (collected.length : ℤ) then collected
    else if use_search_fallback then
      let searched := tmdb_search_multi fallback_query language
          (searchOutcome fallback_query language)
        ++ (if language ≠ "en-US" then
              tmdb_search_multi fallback_query "en-US"
                (searchOutcome fallback_query "en-US")
            else [])
      dedupe_items (collected ++ searched) n_items
    else collected

end MoodPick

/-! ### Lemmas and claim theorems -/

namespace Quiz

lemma rawCounts_length (ratios : List (ℤ × ℤ)) (kLen : ℕ) (total_count : ℤ) :
    (rawCounts ratios kLen total_count).length = kLen := by
  simp [rawCounts]

lemma allocate_cons {ratios : List (ℤ × ℤ)} {kLen : ℕ} {total_count : ℤ}
    {c : ℤ} {cs : List ℤ} (h : rawCounts ratios kLen total_count = c :: cs) :
    allocate ratios kLen total_count = (c + (total_count - (c :: cs).sum)) :: cs := by
  unfold allocate
  rw [h]

lemma allocate_sum (ratios : List (ℤ × ℤ)) (kLen : ℕ) (total_count : ℤ)
    (h : 0 < kLen) :
    (allocate ratios kLen total_count).sum = total_count := by
  have hlen := rawCounts_length ratios kLen total_count
  rcases hrc : rawCounts ratios kLen total_count with _ | ⟨c, cs⟩
  · rw [hrc] at hlen
    simp at hlen
    omega
  · rw [allocate_cons hrc]
    simp
    ring

lemma allocate_shape (ratios : List (ℤ × ℤ)) (kLen : ℕ) (total_count : ℤ)
    (h : 0 < kLen) :
    (allocate ratios kLen total_count).length = kLen ∧
    (allocate ratios kLen total_count).drop 1 =
      (rawCounts ratios kLen total_count).drop 1 ∧
    (allocate ratios kLen total_count).sum = total_count := by
  have hlen := rawCounts_length ratios kLen total_count
  refine ⟨?_, ?_, allocate_sum ratios kLen total_count h⟩
  · rcases hrc : rawCounts ratios kLen total_count with _ | ⟨c, cs⟩
    · rw [hrc] at hlen
      simp at hlen
      omega
    · rw [allocate_cons hrc]
      rw [hrc] at hlen
      simpa using hlen
  · rcases hrc : rawCounts ratios kLen total_count with _ | ⟨c, cs⟩
    · unfold allocate
      rw [hrc]
    · rw [allocate_cons hrc]
      simp

end Quiz

/-- Claim C3: for every requested total item count and every nonempty Winner
Set of size at most K = `MIXED_GENRE_TOP_N`, the per-genre budgets computed
by `build_mixed_recommendations` (rounding each ratio share, then adding the
whole remainder to the first-ranked genre) sum to exactly the requested
total. -/
theorem quota_conservation (total_count : ℤ) (top_keys : List String)
    (h1 : 0 < top_keys.length) (h2 : top_keys.length ≤ Quiz.MIXED_GENRE_TOP_N) :
    (Quiz.allocate Quiz.MIXED_GENRE_RATIO top_keys.length total_count).sum
      = total_count :=
  Quiz.allocate_sum _ _ _ h1

/-- Witness for C3 at the Winner Set ["sf_fantasy", "comedy"] and N = 7. -/
theorem quota_conservation_witness :
    0 < (["sf_fantasy", "comedy"] : List String).length ∧
    (["sf_fantasy", "comedy"] : List String).length ≤ Quiz.MIXED_GENRE_TOP_N ∧
    (Quiz.allocate Quiz.MIXED_GENRE_RATIO
        (["sf_fantasy", "comedy"] : List String).length 7).sum = 7 :=
  ⟨by decide, by decide,
    quota_conservation 7 ["sf_fantasy", "comedy"] (by decide) (by decide)⟩

/-- Claim C2 counterexample: with the ratio list [0.5, 0.5] (which sums to
1, as the spec allows) and N = 3, both shares round to 2, so the rounded
budgets [2, 2] sum to 4 > 3; the code then computes `counts[0] += 3 - 4`,
removing the excess from the PRIMARY allocation (2 becomes 1) while the
non-primary allocation keeps its rounded value 2 — the opposite of the
claim. -/
theorem excess_from_primary_counterexample :
    Quiz.rawCounts [(1, 2), (1, 2)] 2 3 = [2, 2] ∧
    Quiz.allocate [(1, 2), (1, 2)] 2 3 = [1, 2] := by decide

/-- Claim C2 (amended): when the rounded per-genre budgets do not sum to the
requested total, the entire correction — removal of any excess included —
is applied to the primary (first-ranked) genre's allocation: every
non-primary allocation is returned exactly as rounded, and the corrected
list sums to the requested total. -/
theorem rounding_correction_on_primary (ratios : List (ℤ × ℤ)) (kLen : ℕ)
    (total_count : ℤ) (h : 0 < kLen) :
    (Quiz.allocate ratios kLen total_count).drop 1 =
      (Quiz.rawCounts ratios kLen total_count).drop 1 ∧
    (Quiz.allocate ratios kLen total_count).sum = total_count :=
  ⟨(Quiz.allocate_shape ratios kLen total_count h).2.1,
   (Quiz.allocate_shape ratios kLen total_count h).2.2⟩

/-- Witness for the amended C2 at the counterexample input. -/
theorem rounding_correction_on_primary_witness :
    (0 < 2) ∧
    (Quiz.allocate [((1 : ℤ), (2 : ℤ)), (1, 2)] 2 3).drop 1 =
      (Quiz.rawCounts [((1 : ℤ), (2 : ℤ)), (1, 2)] 2 3).drop 1 ∧
    (Quiz.allocate [((1 : ℤ), (2 : ℤ)), (1, 2)] 2 3).sum = 3 :=
  ⟨by decide, (rounding_correction_on_primary [(1, 2), (1, 2)] 2 3 (by decide)).1,
   (rounding_correction_on_primary [(1, 2), (1, 2)] 2 3 (by decide)).2⟩

/-- Claim C4 (amended): for every Score Table and every requested size, the
Winner Set returned by `pick_top_genres` has length at most `top_n`; the
zero-score exclusion in the original claim does not hold (see the
counterexample). -/
theorem winner_set_length_le (items : List (String × ℤ)) (top_n : ℕ) :
    (Quiz.pick_top_genres items top_n).length ≤ top_n := by
  simp only [Quiz.pick_top_genres, List.length_map]
  exact List.length_take_le _ _

/-- Claim C4 counterexample: for the reachable Score Table where only
"sf_fantasy" has positive score (7, e.g. all five answers on it), the
Winner Set of size K = 2 contains "action_adventure" whose score is 0,
although not every genre's score is 0. -/
theorem zero_score_winner_counterexample :
    Quiz.pick_top_genres
        [("romance_drama", 0), ("action_adventure", 0), ("sf_fantasy", 7), ("comedy", 0)] 2
      = ["sf_fantasy", "action_adventure"] ∧
    ([("romance_drama", (0 : ℤ)), ("action_adventure", 0), ("sf_fantasy", 7),
        ("comedy", 0)].lookup "action_adventure") = some 0 ∧
    ¬ (∀ p ∈ [("romance_drama", (0 : ℤ)), ("action_adventure", 0), ("sf_fantasy", 7),
        ("comedy", 0)], p.2 = 0) := by decide

namespace Quiz

lemma dincr_keys : ∀ {d d' : List (String × ℤ)} {g : String} {w : ℤ},
    dincr d g w = some d' → d'.map Prod.fst = d.map Prod.fst := by
  intro d
  induction d with
  | nil => intro d' g w h; simp [dincr] at h
  | cons p rest ih =>
    intro d' g w h
    obtain ⟨k, v⟩ := p
    by_cases hk : k = g
    · simp [dincr, hk] at h
      subst h
      simp [hk]
    · simp [dincr, hk] at h
      obtain ⟨r, hr, hd⟩ := h
      subst hd
      simp [ih hr]

lemma dincr_none {d : List (String × ℤ)} {g : String} (w : ℤ)
    (h : g ∉ d.map Prod.fst) : dincr d g w = none := by
  induction d with
  | nil => rfl
  | cons p rest ih =>
    obtain ⟨k, v⟩ := p
    rw [List.map_cons, List.mem_cons] at h
    push_neg at h
    simp only [dincr]
    rw [if_neg (fun hq : k = g => h.1 hq.symm), ih h.2]
    rfl

lemma scoreFold_none (l : List (String × String)) :
    l.foldl scoreStep none = none := by
  induction l with
  | nil => rfl
  | cons a rest ih => simpa [scoreStep] using ih

lemma score_answers_append (l1 l2 : List (String × String)) :
    score_answers (l1 ++ l2) = l2.foldl scoreStep (score_answers l1) := by
  simp [score_answers, List.foldl_append]

lemma score_answers_keys {answers : List (String × String)}
    {d : List (String × ℤ)} (h : score_answers answers = some d) :
    d.map Prod.fst = GENRES_keys := by
  induction answers using List.reverseRecOn generalizing d with
  | nil =>
    simp [score_answers] at h
    subst h
    simp [GENRES_keys]
  | append_singleton l a ih =>
    rw [score_answers_append] at h
    rcases h' : score_answers l with _ | d0
    · rw [h'] at h
      simp [scoreStep] at h
    · rw [h'] at h
      simp [scoreStep] at h
      exact (dincr_keys h).trans (ih h')

end Quiz

/-- Claim C10: `score_answers` is only total on answer sets whose values are
defined genre keys: any answer whose chosen key is not in `GENRES` makes
`score_answers` raise a KeyError (modelled by `none`) rather than ignoring
the answer or defaulting its score. -/
theorem score_answers_keyerror (answers : List (String × String)) (q g : String)
    (hmem : (q, g) ∈ answers) (hbad : g ∉ Quiz.GENRES_keys) :
    Quiz.score_answers answers = none := by
  obtain ⟨s, t, rfl⟩ := List.append_of_mem hmem
  have hsg : Quiz.score_answers (s ++ [(q, g)]) = none := by
    rw [Quiz.score_answers_append]
    rcases h' : Quiz.score_answers s with _ | d0
    · simp [Quiz.scoreStep]
    · simp [Quiz.scoreStep]
      exact Quiz.dincr_none _ (by rw [Quiz.score_answers_keys h']; exact hbad)
  calc Quiz.score_answers (s ++ (q, g) :: t)
      = Quiz.score_answers ((s ++ [(q, g)]) ++ t) := by simp
    _ = t.foldl Quiz.scoreStep (Quiz.score_answers (s ++ [(q, g)])) :=
        Quiz.score_answers_append _ _
    _ = t.foldl Quiz.scoreStep none := by rw [hsg]
    _ = none := Quiz.scoreFold_none t

/-- Witness for C10: a single answer mapping q1 to the undefined key
"horror" makes scoring fail. -/
theorem score_answers_keyerror_witness :
    (("q1", "horror") ∈ ([("q1", "horror")] : List (String × String))) ∧
    "horror" ∉ Quiz.GENRES_keys ∧
    Quiz.score_answers [("q1", "horror")] = none :=
  ⟨by decide, by decide,
    score_answers_keyerror [("q1", "horror")] "q1" "horror" (by decide) (by decide)⟩

namespace Quiz

lemma wlookup_nonneg (q : String) : 0 ≤ wlookup q := by
  simp only [wlookup, QUESTION_WEIGHTS, List.lookup]
  repeat' split
  all_goals simp

lemma sum_wlookup_nonneg (l : List (String × String)) :
    0 ≤ (l.map fun a => wlookup a.1).sum := by
  induction l with
  | nil => simp
  | cons a rest ih =>
    simp only [List.map_cons, List.sum_cons]
    exact add_nonneg (wlookup_nonneg a.1) ih

lemma tally_nonneg (answers : List (String × String)) (k : String) :
    0 ≤ tally answers k :=
  sum_wlookup_nonneg _

lemma tally_cons (a : String × String) (l : List (String × String)) (k : String) :
    tally (a :: l) k = (if a.2 = k then wlookup a.1 else 0) + tally l k := by
  by_cases h : a.2 = k <;> simp [tally, List.filter_cons, h]

lemma tally_append_single (l : List (String × String)) (q g k : String) :
    tally (l ++ [(q, g)]) k = tally l k + (if g = k then wlookup q else 0) := by
  by_cases h : g = k <;> simp [tally, List.filter_append, List.filter_cons, h]

lemma score_answers_closed (answers : List (String × String))
    (hval : ∀ p ∈ answers, p.2 ∈ GENRES_keys) :
    score_answers answers = some (GENRES_keys.map fun k => (k, tally answers k)) := by
  induction answers using List.reverseRecOn with
  | nil => simp [score_answers, tally]
  | append_singleton l a ih =>
    have hval' : ∀ p ∈ l, p.2 ∈ GENRES_keys := fun p hp =>
      hval p (List.mem_append_left _ hp)
    have ha : a.2 ∈ GENRES_keys := hval a (by simp)
    rw [score_answers_append, ih hval']
    obtain ⟨q, g⟩ := a
    simp only [List.foldl_cons, List.foldl_nil, scoreStep, Option.some_bind]
    simp only [tally_append_single]
    simp only [GENRES_keys] at ha ⊢
    fin_cases ha <;> simp [dincr]

lemma tally_total (answers : List (String × String))
    (hval : ∀ p ∈ answers, p.2 ∈ GENRES_keys) :
    (GENRES_keys.map fun k => tally answers k).sum
      = (answers.map fun a => wlookup a.1).sum := by
  induction answers with
  | nil => simp [tally]
  | cons a rest ih =>
    have hval' : ∀ p ∈ rest, p.2 ∈ GENRES_keys := fun p hp =>
      hval p (List.mem_cons_of_mem a hp)
    have hrest := ih hval'
    have ha : a.2 ∈ GENRES_keys := hval a (List.mem_cons_self a rest)
    obtain ⟨q, g⟩ := a
    simp only [GENRES_keys, List.map_cons, List.map_nil, List.sum_cons,
      List.sum_nil, tally_cons] at hrest ⊢
    simp only [GENRES_keys] at ha
    fin_cases ha <;> simp <;> omega

end Quiz

/-- Claim C7: for every complete Answer Set (its question ids are a
permutation of the configured ones) whose values are defined genre keys, the
Score Table has exactly one entry per defined genre (its key list is exactly
`GENRES_keys`), every entry is non-negative, the entries sum to the sum of
the configured weights of the answered questions (which is 7 for a complete
set), and appending one further answer changes only the chosen genre's
entry, by exactly that question's weight. -/
theorem score_table_shape (answers : List (String × String))
    (hcomplete : List.Perm (answers.map Prod.fst) Quiz.QUESTIONS_ids)
    (hval : ∀ p ∈ answers, p.2 ∈ Quiz.GENRES_keys) :
    ∃ d, Quiz.score_answers answers = some d ∧
      d.map Prod.fst = Quiz.GENRES_keys ∧
      (∀ p ∈ d, 0 ≤ p.2) ∧
      (d.map Prod.snd).sum = (answers.map fun a => Quiz.wlookup a.1).sum ∧
      (answers.map fun a => Quiz.wlookup a.1).sum = 7 ∧
      ∀ q g, g ∈ Quiz.GENRES_keys →
        Quiz.score_answers (answers ++ [(q, g)]) =
          some (d.map fun p => (p.1, p.2 + if g = p.1 then Quiz.wlookup q else 0)) := by
  refine ⟨Quiz.GENRES_keys.map fun k => (k, Quiz.tally answers k),
    Quiz.score_answers_closed answers hval, by simp [Function.comp_def], ?_, ?_, ?_, ?_⟩
  · intro p hp
    simp only [List.mem_map] at hp
    obtain ⟨k, _, rfl⟩ := hp
    exact Quiz.tally_nonneg answers k
  · rw [List.map_map]
    simpa [Function.comp] using Quiz.tally_total answers hval
  · have h1 : (answers.map fun a => Quiz.wlookup a.1)
        = (answers.map Prod.fst).map Quiz.wlookup := by
      rw [List.map_map]
      rfl
    rw [h1, (hcomplete.map Quiz.wlookup).sum_eq]
    decide
  · intro q g hg
    have hval2 : ∀ p ∈ answers ++ [(q, g)], p.2 ∈ Quiz.GENRES_keys := by
      intro p hp
      rcases List.mem_append.1 hp with h | h
      · exact hval p h
      · simp at h
        subst h
        exact hg
    rw [Quiz.score_answers_closed _ hval2]
    simp [List.map_map, Function.comp, Quiz.tally_append_single]

/-- Witness for C7 at a concrete complete answer set (three answers on
sf_fantasy, two on comedy). -/
theorem score_table_shape_witness :
    List.Perm (([("q1", "sf_fantasy"), ("q2", "sf_fantasy"), ("q3", "sf_fantasy"),
        ("q4", "comedy"), ("q5", "comedy")] : List (String × String)).map Prod.fst)
      Quiz.QUESTIONS_ids ∧
    (∀ p ∈ ([("q1", "sf_fantasy"), ("q2", "sf_fantasy"), ("q3", "sf_fantasy"),
        ("q4", "comedy"), ("q5", "comedy")] : List (String × String)),
      p.2 ∈ Quiz.GENRES_keys) ∧
    ∃ d, Quiz.score_answers [("q1", "sf_fantasy"), ("q2", "sf_fantasy"),
        ("q3", "sf_fantasy"), ("q4", "comedy"), ("q5", "comedy")] = some d ∧
      d.map Prod.fst = Quiz.GENRES_keys ∧
      (∀ p ∈ d, 0 ≤ p.2) ∧
      (d.map Prod.snd).sum = (([("q1", "sf_fantasy"), ("q2", "sf_fantasy"),
        ("q3", "sf_fantasy"), ("q4", "comedy"), ("q5", "comedy")] :
          List (String × String)).map fun a => Quiz.wlookup a.1).sum ∧
      (([("q1", "sf_fantasy"), ("q2", "sf_fantasy"), ("q3", "sf_fantasy"),
        ("q4", "comedy"), ("q5", "comedy")] : List (String × String)).map
          fun a => Quiz.wlookup a.1).sum = 7 ∧
      ∀ q g, g ∈ Quiz.GENRES_keys →
        Quiz.score_answers ([("q1", "sf_fantasy"), ("q2", "sf_fantasy"),
            ("q3", "sf_fantasy"), ("q4", "comedy"), ("q5", "comedy")] ++ [(q, g)]) =
          some (d.map fun p => (p.1, p.2 + if g = p.1 then Quiz.wlookup q else 0)) :=
  ⟨by decide, by decide, score_table_shape _ (by decide) (by decide)⟩

namespace Quiz

lemma tieRank_inj {a b : String} (ha : a ∈ TIE_BREAKER_ORDER)
    (hb : b ∈ TIE_BREAKER_ORDER) (h : tieRank a = tieRank b) : a = b := by
  fin_cases ha <;> fin_cases hb <;> revert h <;> decide

lemma pyLe_antisymm {x y : String × ℤ} (hx : x.1 ∈ TIE_BREAKER_ORDER)
    (hy : y.1 ∈ TIE_BREAKER_ORDER) (h1 : pyLe x y) (h2 : pyLe y x) : x = y := by
  rcases h1 with h1 | ⟨h1, r1⟩ <;> rcases h2 with h2 | ⟨h2, r2⟩
  · exact absurd h2 (lt_asymm h1)
  · rw [h2] at h1
    exact absurd h1 (lt_irrefl _)
  · rw [h1] at h2
    exact absurd h2 (lt_irrefl _)
  · have hs : x.2 = y.2 := neg_inj.1 h1
    have hk : x.1 = y.1 := tieRank_inj hx hy (le_antisymm r1 r2)
    exact Prod.ext hk hs

lemma eq_of_perm_of_sorted_on {α : Type} {r : α → α → Prop} :
    ∀ {l₁ l₂ : List α}, List.Perm l₁ l₂ → l₁.Sorted r → l₂.Sorted r →
      (∀ x ∈ l₁, ∀ y ∈ l₂, r x y → r y x → x = y) → l₁ = l₂ := by
  intro l₁
  induction l₁ with
  | nil =>
    intro l₂ hp _ _ _
    exact (hp.symm.eq_nil).symm
  | cons a t₁ ih =>
    intro l₂ hp hs₁ hs₂ hanti
    have ha₂ : a ∈ l₂ := hp.mem_iff.1 (List.mem_cons_self a t₁)
    cases l₂ with
    | nil => exact absurd ha₂ (List.not_mem_nil a)
    | cons b t₂ =>
      have hb₁ : b ∈ a :: t₁ := hp.symm.mem_iff.1 (List.mem_cons_self b t₂)
      have hab : a = b := by
        rcases List.mem_cons.1 hb₁ with h | hbt
        · exact h.symm
        rcases List.mem_cons.1 ha₂ with h | hat
        · exact h
        have rab : r a b := List.rel_of_sorted_cons hs₁ b hbt
        have rba : r b a := List.rel_of_sorted_cons hs₂ a hat
        exact hanti a (List.mem_cons_self a t₁) b (List.mem_cons_self b t₂) rab rba
      subst hab
      have hp' : List.Perm t₁ t₂ := List.Perm.cons_inv hp
      have hrec := ih hp' hs₁.of_cons hs₂.of_cons
        (fun x hx y hy => hanti x (List.mem_cons_of_mem _ hx) y (List.mem_cons_of_mem _ hy))
      rw [hrec]

lemma sortedPairs_perm {items₁ items₂ : List (String × ℤ)}
    (hperm : List.Perm items₁ items₂)
    (hval : ∀ p ∈ items₁, p.1 ∈ TIE_BREAKER_ORDER) :
    sortedPairs items₁ = sortedPairs items₂ := by
  apply eq_of_perm_of_sorted_on
  · exact (List.perm_insertionSort pyLe items₁).trans
      (hperm.trans (List.perm_insertionSort pyLe items₂).symm)
  · exact List.sorted_insertionSort pyLe items₁
  · exact List.sorted_insertionSort pyLe items₂
  · intro x hx y hy h1 h2
    apply pyLe_antisymm ?_ ?_ h1 h2
    · exact hval x ((List.perm_insertionSort pyLe items₁).mem_iff.1 hx)
    · exact hval y (hperm.symm.mem_iff.1
        ((List.perm_insertionSort pyLe items₂).mem_iff.1 hy))

end Quiz

/-- Claim C5: the Winner Set does not depend on the iteration order of the
score dict (any permutation of the item list gives the same result), and
inside the selected, sorted prefix two genres with equal score appear in
ascending tie-break-rank order: the one with the lower configured rank
comes strictly earlier. -/
theorem tie_break_determinism (items₁ items₂ : List (String × ℤ)) (top_n : ℕ)
    (hperm : List.Perm items₁ items₂)
    (hval : ∀ p ∈ items₁, p.1 ∈ Quiz.TIE_BREAKER_ORDER) :
    Quiz.pick_top_genres items₁ top_n = Quiz.pick_top_genres items₂ top_n ∧
    ∀ (i j : ℕ) (hi : i < ((Quiz.sortedPairs items₁).take top_n).length)
      (hj : j < ((Quiz.sortedPairs items₁).take top_n).length)
      (k₁ k₂ : String) (s : ℤ),
      ((Quiz.sortedPairs items₁).take top_n).get ⟨i, hi⟩ = (k₁, s) →
      ((Quiz.sortedPairs items₁).take top_n).get ⟨j, hj⟩ = (k₂, s) →
      Quiz.tieRank k₁ < Quiz.tieRank k₂ → i < j := by
  constructor
  · unfold Quiz.pick_top_genres
    rw [Quiz.sortedPairs_perm hperm hval]
  · have hsorted : ((Quiz.sortedPairs items₁).take top_n).Pairwise Quiz.pyLe :=
      List.Pairwise.sublist (List.take_sublist _ _)
        (List.sorted_insertionSort Quiz.pyLe items₁)
    intro i j hi hj k₁ k₂ s h1 h2 hrank
    rcases lt_trichotomy i j with h | h | h
    · exact h
    · exfalso
      subst h
      have : (k₁, s) = (k₂, s) := h1.symm.trans h2
      rw [Prod.mk.injEq] at this
      rw [this.1] at hrank
      exact lt_irrefl _ hrank
    · exfalso
      have hp := List.pairwise_iff_get.1 hsorted ⟨j, hj⟩ ⟨i, hi⟩ h
      rw [h1, h2] at hp
      simp only [Quiz.pyLe] at hp
      rcases hp with hlt | ⟨_, hle⟩
      · exact lt_irrefl _ hlt
      · exact absurd hle (not_le.2 hrank)

/-- Witness for C5: two score tables that are permutations of each other
(both give aa and rd the same score 1) produce the same Winner Set. -/
theorem tie_break_determinism_witness :
    List.Perm [(("action_adventure" : String), (1 : ℤ)), ("romance_drama", 1)]
      [("romance_drama", 1), ("action_adventure", 1)] ∧
    (∀ p ∈ [(("action_adventure" : String), (1 : ℤ)), ("romance_drama", 1)],
      p.1 ∈ Quiz.TIE_BREAKER_ORDER) ∧
    Quiz.pick_top_genres [("action_adventure", 1), ("romance_drama", 1)] 2 =
      Quiz.pick_top_genres [("romance_drama", 1), ("action_adventure", 1)] 2 :=
  ⟨by decide, by decide,
    (tie_break_determinism [("action_adventure", 1), ("romance_drama", 1)]
      [("romance_drama", 1), ("action_adventure", 1)] 2 (by decide) (by decide)).1⟩

namespace Quiz

lemma lookup_zero {l : List (String × ℤ)} {k : String}
    (hz : ∀ p ∈ l, p.2 = 0) (hk : k ∈ l.map Prod.fst) : l.lookup k = some 0 := by
  induction l with
  | nil => simp at hk
  | cons p rest ih =>
    obtain ⟨k', v⟩ := p
    have hv : v = 0 := hz (k', v) (List.mem_cons_self _ _)
    rw [List.map_cons, List.mem_cons] at hk
    by_cases h : k = k'
    · simp [List.lookup, beq_iff_eq, h, hv]
    · have hk' : k ∈ rest.map Prod.fst := by
        rcases hk with h1 | h1
        · exact absurd h1 h
        · exact h1
      have hb : (k == k') = false := beq_eq_false_iff_ne.2 h
      simp only [List.lookup, hb]
      exact ih (fun p hp => hz p (List.mem_cons_of_mem _ hp)) hk'

end Quiz

/-- Claim C6: when every genre's score is zero (the score table is any
iteration order of the all-zero dict), selection still returns a Winner Set
fully populated up to K = 2, ordered purely by tie-break rank (it is
exactly the first K entries of `TIE_BREAKER_ORDER`), and the rationale
percentages are 0% for every winner (the total is floored at 1, so no
division by zero occurs). -/
theorem all_zero_fallback (items : List (String × ℤ))
    (hperm : List.Perm items (Quiz.GENRES_keys.map fun k => (k, 0))) :
    Quiz.pick_top_genres items Quiz.MIXED_GENRE_TOP_N
        = Quiz.TIE_BREAKER_ORDER.take Quiz.MIXED_GENRE_TOP_N ∧
    (Quiz.pick_top_genres items Quiz.MIXED_GENRE_TOP_N).length
        = Quiz.MIXED_GENRE_TOP_N ∧
    Quiz.result_pcts (Quiz.pick_top_genres items Quiz.MIXED_GENRE_TOP_N) items
        = some [0, 0] := by
  have hzero : ∀ p ∈ items, p.2 = 0 := by
    intro p hp
    have h := hperm.mem_iff.1 hp
    simp [Quiz.GENRES_keys] at h
    rcases h with h | h | h | h <;> rw [h]
  have hval : ∀ p ∈ items, p.1 ∈ Quiz.TIE_BREAKER_ORDER := by
    intro p hp
    have h := hperm.mem_iff.1 hp
    simp [Quiz.GENRES_keys] at h
    rcases h with h | h | h | h <;> subst h <;> decide
  have hpick : Quiz.pick_top_genres items Quiz.MIXED_GENRE_TOP_N
      = Quiz.pick_top_genres (Quiz.GENRES_keys.map fun k => (k, 0))
          Quiz.MIXED_GENRE_TOP_N := by
    unfold Quiz.pick_top_genres
    rw [Quiz.sortedPairs_perm hperm hval]
  have hpick2 : Quiz.pick_top_genres (Quiz.GENRES_keys.map fun k => (k, 0))
      Quiz.MIXED_GENRE_TOP_N = ["sf_fantasy", "action_adventure"] := by decide
  have hkeys : List.Perm (items.map Prod.fst) Quiz.GENRES_keys := by
    have h := hperm.map Prod.fst
    simpa using h
  have hsum : (items.map Prod.snd).sum = 0 := by
    rw [(hperm.map Prod.snd).sum_eq]
    decide
  have hsf : items.lookup "sf_fantasy" = some 0 :=
    Quiz.lookup_zero hzero (hkeys.mem_iff.2 (by decide))
  have haa : items.lookup "action_adventure" = some 0 :=
    Quiz.lookup_zero hzero (hkeys.mem_iff.2 (by decide))
  refine ⟨?_, ?_, ?_⟩
  · rw [hpick, hpick2]
    decide
  · rw [hpick, hpick2]
    decide
  · rw [hpick, hpick2]
    have h0 : pyRound (0 : ℤ) 1 = 0 := by decide
    simp [Quiz.result_pcts, hsum, List.mapM.loop, hsf, haa, h0]

/-- Witness for C6 at the canonical all-zero score table. -/
theorem all_zero_fallback_witness :
    List.Perm (Quiz.GENRES_keys.map fun k => (k, (0 : ℤ)))
      (Quiz.GENRES_keys.map fun k => (k, 0)) ∧
    Quiz.pick_top_genres (Quiz.GENRES_keys.map fun k => (k, (0 : ℤ)))
        Quiz.MIXED_GENRE_TOP_N
      = Quiz.TIE_BREAKER_ORDER.take Quiz.MIXED_GENRE_TOP_N ∧
    Quiz.result_pcts
        (Quiz.pick_top_genres (Quiz.GENRES_keys.map fun k => (k, (0 : ℤ)))
          Quiz.MIXED_GENRE_TOP_N)
        (Quiz.GENRES_keys.map fun k => (k, 0)) = some [0, 0] :=
  ⟨List.Perm.refl _,
   (all_zero_fallback _ (List.Perm.refl _)).1,
   (all_zero_fallback _ (List.Perm.refl _)).2.2⟩

namespace MoodPick

lemma dedupeLoop_length {limit : ℤ} :
    ∀ (items out : List Item) (seen : List (String × Option ℤ)),
      (out.length : ℤ) < limit →
      ((dedupeLoop limit items out seen).length : ℤ) ≤ limit := by
  intro items
  induction items with
  | nil =>
    intro out seen h
    simpa [dedupeLoop] using le_of_lt h
  | cons x rest ih =>
    intro out seen h
    simp only [dedupeLoop]
    by_cases hk : (x.media_type, x.id) ∈ seen
    · rw [if_pos hk]
      exact ih out seen h
    · rw [if_neg hk]
      by_cases hl : limit ≤ ((out ++ [x]).length : ℤ)
      · rw [if_pos hl]
        have hlen : ((out ++ [x]).length : ℤ) = (out.length : ℤ) + 1 := by simp
        omega
      · rw [if_neg hl]
        push_neg at hl
        exact ih _ _ hl

lemma dedupe_items_length (items : List Item) (limit : ℤ) (h : 1 ≤ limit) :
    ((dedupe_items items limit).length : ℤ) ≤ limit :=
  dedupeLoop_length items [] [] (by simpa using h)

lemma foldl_append_const {β γ : Type} (f : γ → List β) :
    ∀ (l : List γ) (acc : List β), (∀ x, f x = []) →
      l.foldl (fun a x => a ++ f x) acc = acc := by
  intro l
  induction l with
  | nil => intro acc _; rfl
  | cons x rest ih =>
    intro acc hf
    rw [List.foldl_cons, hf x, List.append_nil]
    exact ih acc hf

lemma resolver_of_empty_catalog
    (discOutcome : String → List ℤ → ℤ → ℕ → FetchOutcome)
    (searchOutcome : String → String → FetchOutcome)
    (content_mode mood vibe weather fallback_query language region : String)
    (vote_count_gte n_items : ℤ) (use_search_fallback : Bool)
    (hd : ∀ (media : String) (genres : List ℤ) (vg : ℤ) (page : ℕ),
      tmdb_discover media genres language region vg page
        (discOutcome media genres vg page) = [])
    (hs : ∀ (q l : String),
      tmdb_search_multi q l (searchOutcome q l) = []) :
    tmdb_get_recommendations_weighted discOutcome searchOutcome
      content_mode mood vibe weather fallback_query language region
      vote_count_gte n_items use_search_fallback = [] := by
  unfold tmdb_get_recommendations_weighted
  simp only [hd, hs]
  simp [dedupe_items, dedupeLoop]

lemma resolver_length
    (discOutcome : String → List ℤ → ℤ → ℕ → FetchOutcome)
    (searchOutcome : String → String → FetchOutcome)
    (content_mode mood vibe weather fallback_query language region : String)
    (vote_count_gte n_items : ℤ) (use_search_fallback : Bool)
    (h : 1 ≤ n_items) :
    ((tmdb_get_recommendations_weighted discOutcome searchOutcome
      content_mode mood vibe weather fallback_query language region
      vote_count_gte n_items use_search_fallback).length : ℤ) ≤ n_items := by
  unfold tmdb_get_recommendations_weighted
  dsimp only
  split_ifs <;> exact dedupe_items_length _ _ h

end MoodPick

/-- Claim C8: with a catalog that returns zero items at every tier (every
discover and search call succeeds with an empty result list), the tiered
resolver returns the empty list — the embedding is a total function, so no
exception is raised; and for every catalog at all, the returned list has
length at most the requested `n_items` (which the UI slider keeps at
least 1). -/
theorem tier_exhaustion_and_cap :
    (∀ (content_mode mood vibe weather fallback_query language region : String)
       (vote_count_gte n_items : ℤ) (use_search_fallback : Bool),
       MoodPick.tmdb_get_recommendations_weighted
         (fun _ _ _ _ => MoodPick.FetchOutcome.ok ⟨some []⟩)
         (fun _ _ => MoodPick.FetchOutcome.ok ⟨some []⟩)
         content_mode mood vibe weather fallback_query language region
         vote_count_gte n_items use_search_fallback = []) ∧
    (∀ (discOutcome : String → List ℤ → ℤ → ℕ → MoodPick.FetchOutcome)
       (searchOutcome : String → String → MoodPick.FetchOutcome)
       (content_mode mood vibe weather fallback_query language region : String)
       (vote_count_gte n_items : ℤ) (use_search_fallback : Bool),
       1 ≤ n_items →
       ((MoodPick.tmdb_get_recommendations_weighted discOutcome searchOutcome
         content_mode mood vibe weather fallback_query language region
         vote_count_gte n_items use_search_fallback).length : ℤ) ≤ n_items) := by
  constructor
  · intro content_mode mood vibe weather fallback_query language region vg n fb
    exact MoodPick.resolver_of_empty_catalog _ _ _ _ _ _ _ _ _ _ _ _
      (fun _ _ _ _ => rfl) (fun _ _ => rfl)
  · intro discO searchO content_mode mood vibe weather fallback_query language region vg n fb h
    exact MoodPick.resolver_length _ _ _ _ _ _ _ _ _ _ _ _ h

/-- Witness for C8: the empty catalog yields a zero-length result, and with
the default n_items = 3 the cap hypothesis 1 ≤ 3 holds and the bound is
attained. -/
theorem tier_exhaustion_and_cap_witness :
    MoodPick.tmdb_get_recommendations_weighted
      (fun _ _ _ _ => MoodPick.FetchOutcome.ok ⟨some []⟩)
      (fun _ _ => MoodPick.FetchOutcome.ok ⟨some []⟩)
      "both" "피곤함" "혼자" "맑음" "산책" "ko-KR" "KR" 150 3 true = [] ∧
    (1 : ℤ) ≤ 3 ∧
    ((MoodPick.tmdb_get_recommendations_weighted
      (fun _ _ _ _ => MoodPick.FetchOutcome.ok ⟨some []⟩)
      (fun _ _ => MoodPick.FetchOutcome.ok ⟨some []⟩)
      "both" "피곤함" "혼자" "맑음" "산책" "ko-KR" "KR" 150 3 true).length : ℤ) ≤ 3 :=
  ⟨tier_exhaustion_and_cap.1 "both" "피곤함" "혼자" "맑음" "산책" "ko-KR" "KR" 150 3 true,
   by decide,
   tier_exhaustion_and_cap.2 _ _ "both" "피곤함" "혼자" "맑음" "산책" "ko-KR" "KR" 150 3 true
     (by decide)⟩

/-- Claim C9: in the MoodPick variant, every transport error, non-success
HTTP status or JSON parse failure inside `tmdb_discover` or
`tmdb_search_multi` makes the call return the empty list instead of
raising; consequently the tiered resolver run against an all-failing
catalog returns exactly what it returns against a catalog that succeeds
with empty results — the failure is indistinguishable from an empty
result. -/
theorem catalog_errors_silent :
    (∀ (media : String) (genres : List ℤ) (language region : String)
       (vote_count_gte : ℤ) (page : ℕ) (outcome : MoodPick.FetchOutcome),
       outcome.isFailure →
       MoodPick.tmdb_discover media genres language region vote_count_gte page
         outcome = []) ∧
    (∀ (query language : String) (outcome : MoodPick.FetchOutcome),
       outcome.isFailure →
       MoodPick.tmdb_search_multi query language outcome = []) ∧
    (∀ (discOutcome : String → List ℤ → ℤ → ℕ → MoodPick.FetchOutcome)
       (searchOutcome : String → String → MoodPick.FetchOutcome)
       (content_mode mood vibe weather fallback_query language region : String)
       (vote_count_gte n_items : ℤ) (use_search_fallback : Bool),
       (∀ m g v p, (discOutcome m g v p).isFailure) →
       (∀ q l, (searchOutcome q l).isFailure) →
       MoodPick.tmdb_get_recommendations_weighted discOutcome searchOutcome
           content_mode mood vibe weather fallback_query language region
           vote_count_gte n_items use_search_fallback
         = MoodPick.tmdb_get_recommendations_weighted
             (fun _ _ _ _ => MoodPick.FetchOutcome.ok ⟨some []⟩)
             (fun _ _ => MoodPick.FetchOutcome.ok ⟨some []⟩)
             content_mode mood vibe weather fallback_query language region
             vote_count_gte n_items use_search_fallback) := by
  refine ⟨?_, ?_, ?_⟩
  · intro media genres language region vg page outcome hfail
    cases outcome <;> first | rfl | exact absurd hfail (by simp [MoodPick.FetchOutcome.isFailure])
  · intro query language outcome hfail
    cases outcome <;> first | rfl | exact absurd hfail (by simp [MoodPick.FetchOutcome.isFailure])
  · intro discO searchO content_mode mood vibe weather fallback_query language region vg n fb hd hs
    rw [MoodPick.resolver_of_empty_catalog discO searchO _ _ _ _ _ _ _ _ _ _
      (fun media genres v p => by
        cases ho : discO media genres v p <;>
          first
            | rfl
            | exact absurd (ho ▸ hd media genres v p) (by simp [MoodPick.FetchOutcome.isFailure]))
      (fun q l => by
        cases ho : searchO q l <;>
          first
            | rfl
            | exact absurd (ho ▸ hs q l) (by simp [MoodPick.FetchOutcome.isFailure]))]
    rw [MoodPick.resolver_of_empty_catalog
      (fun _ _ _ _ => MoodPick.FetchOutcome.ok ⟨some []⟩)
      (fun _ _ => MoodPick.FetchOutcome.ok ⟨some []⟩) _ _ _ _ _ _ _ _ _ _
      (fun _ _ _ _ => rfl) (fun _ _ => rfl)]

/-- Witness for C9: a transport error in a discover call and a parse error
in a search call both produce the empty list, and an all-transport-error
catalog gives the same resolver output as an all-empty catalog. -/
theorem catalog_errors_silent_witness :
    MoodPick.FetchOutcome.transportError.isFailure ∧
    MoodPick.tmdb_discover "movie" [35] "ko-KR" "KR" 150 1
      MoodPick.FetchOutcome.transportError = [] ∧
    MoodPick.FetchOutcome.parseError.isFailure ∧
    MoodPick.tmdb_search_multi "산책" "ko-KR" MoodPick.FetchOutcome.parseError = [] ∧
    MoodPick.tmdb_get_recommendations_weighted
        (fun _ _ _ _ => MoodPick.FetchOutcome.transportError)
        (fun _ _ => MoodPick.FetchOutcome.transportError)
        "both" "설렘" "데이트" "비" "음악" "ko-KR" "KR" 150 3 true
      = MoodPick.tmdb_get_recommendations_weighted
          (fun _ _ _ _ => MoodPick.FetchOutcome.ok ⟨some []⟩)
          (fun _ _ => MoodPick.FetchOutcome.ok ⟨some []⟩)
          "both" "설렘" "데이트" "비" "음악" "ko-KR" "KR" 150 3 true :=
  ⟨trivial,
   catalog_errors_silent.1 "movie" [35] "ko-KR" "KR" 150 1 _ trivial,
   trivial,
   catalog_errors_silent.2.1 "산책" "ko-KR" _ trivial,
   catalog_errors_silent.2.2 _ _ "both" "설렘" "데이트" "비" "음악" "ko-KR" "KR" 150 3 true
     (fun _ _ _ _ => trivial) (fun _ _ => trivial)⟩

namespace Quiz

lemma fetchStep_inv {s : List Movie × List ℤ} {m : Movie} (h : FetchInv s) :
    FetchInv (fetchStep s m) := by
  obtain ⟨h1, h2⟩ := h
  cases hid : m.id with
  | none =>
    simp only [fetchStep, hid]
    exact ⟨h1, h2⟩
  | some v =>
    simp only [fetchStep, hid]
    by_cases hv : v = 0 ∨ v ∈ s.2
    · rw [if_pos hv]
      exact ⟨h1, h2⟩
    · rw [if_neg hv]
      push_neg at hv
      constructor
      · simp [h1, hid]
      · simp [List.nodup_append, h2, hv.2]

lemma addChunk_inv {s : List Movie × List ℤ} (chunk : List Movie)
    (h : FetchInv s) : FetchInv (addChunk s chunk) := by
  induction chunk generalizing s with
  | nil => exact h
  | cons m rest ih => exact ih (fetchStep_inv h)

lemma fetchGids_inv (cat : ℤ → ℕ → List Movie) (need : ℤ) :
    ∀ (gids : List ℤ) (s : List Movie × List ℤ),
      FetchInv s → FetchInv (fetchGids cat need gids s) := by
  intro gids
  induction gids with
  | nil => intro s h; exact h
  | cons gid rest ih =>
    intro s h
    simp only [fetchGids]
    split_ifs
    · exact addChunk_inv _ h
    · exact addChunk_inv _ (addChunk_inv _ h)
    · exact ih _ (addChunk_inv _ (addChunk_inv _ h))

lemma fetch_movies_ids_nodup (cat : ℤ → ℕ → List Movie)
    (profile : GenreProfile) (need : ℤ) :
    ((fetch_movies_for_profile cat profile need).map Movie.id).Nodup := by
  have h := fetchGids_inv cat need profile.tmdb_ids ([], []) ⟨rfl, List.nodup_nil⟩
  obtain ⟨h1, h2⟩ := h
  unfold fetch_movies_for_profile
  rw [h1]
  exact h2.map (Option.some_injective ℤ)

lemma pickLoop_sublist (limit : ℤ) :
    ∀ (ms out : List Movie) (seen : List String),
      ∃ t, pickLoop limit ms out seen = out ++ t ∧ t.Sublist ms := by
  intro ms
  induction ms with
  | nil =>
    intro out seen
    exact ⟨[], by simp [pickLoop], List.Sublist.refl []⟩
  | cons m rest ih =>
    intro out seen
    simp only [pickLoop]
    by_cases h1 : pyStrip (m.title.getD "") = "" ∨ pyStrip (m.title.getD "") ∈ seen
    · rw [if_pos h1]
      obtain ⟨t, ht, hs⟩ := ih out seen
      exact ⟨t, ht, hs.cons m⟩
    · rw [if_neg h1]
      by_cases h2 : limit ≤ ((out ++ [m]).length : ℤ)
      · rw [if_pos h2]
        exact ⟨[m], rfl, by simp⟩
      · rw [if_neg h2]
        obtain ⟨t, ht, hs⟩ := ih (out ++ [m]) (seen ++ [pyStrip (m.title.getD "")])
        exact ⟨m :: t, by rw [ht]; simp, hs.cons₂ m⟩

lemma pick_top_unique_ids_nodup (movies : List Movie) (limit : ℤ)
    (h : (movies.map Movie.id).Nodup) :
    ((pick_top_unique movies limit true).map Movie.id).Nodup := by
  obtain ⟨t, ht, hs⟩ := pickLoop_sublist limit (List.insertionSort movieLe movies) [] []
  have hgoal : pick_top_unique movies limit true
      = pickLoop limit (List.insertionSort movieLe movies) [] [] := rfl
  rw [hgoal, ht, List.nil_append]
  have hnodup : ((List.insertionSort movieLe movies).map Movie.id).Nodup :=
    (((List.perm_insertionSort movieLe movies).map Movie.id).nodup_iff).2 h
  exact hnodup.sublist (hs.map Movie.id)

end Quiz

/-- Claim C1 counterexample: with a stubbed catalog on which both winner
genres resolve the same movie (source id 1), the final mixed list returned
by `build_mixed_recommendations` carries id 1 twice — once under each
winner genre.  The dedup state (`seen` ids, `seen_titles`) is rebuilt per
genre; nothing deduplicates across the two categories. -/
theorem cross_genre_duplicate_counterexample :
    ((Quiz.build_mixed_recommendations
        (fun _ _ => [{ id := some 1, title := some "A", poster_path := some "p",
                       vote_average := some 5, overview := none }])
        ["sf_fantasy", "romance_drama"] 6).getD []).map (fun p => p.2.id)
      = [some 1, some 1] := by decide

/-- Claim C1 (amended): the returned list is unique by source identifier
WITHIN each winner genre: for every catalog, profile, fetch budget and pick
limit, the picks that `build_mixed_recommendations` produces for one genre
(`pick_top_unique` over `fetch_movies_for_profile`) contain each source id
at most once.  Across the two winner genres the same source id may appear
once per genre (see the counterexample). -/
theorem per_genre_ids_unique (cat : ℤ → ℕ → List Quiz.Movie)
    (profile : Quiz.GenreProfile) (need limit : ℤ) :
    ((Quiz.pick_top_unique (Quiz.fetch_movies_for_profile cat profile need)
        limit true).map Quiz.Movie.id).Nodup :=
  Quiz.pick_top_unique_ids_nodup _ _ (Quiz.fetch_movies_ids_nodup cat profile need)
